import Mathlib

/-!
Shallow embedding of the simulation core of the Bevy platformer in
src/src/main.rs: the seeded platform generator, fruit placement, AABB
collision resolution, and the death/collection/restart state logic.

Modelling conventions:
- f32 values are modelled as exact rationals. All arithmetic in the
  embedded code (addition, multiplication, division by constants,
  absolute value, min) is carried over literally.
- u64 / u32 / usize values are modelled as Nat with explicit wrapping
  (mod 2 ^ 64, mod 2 ^ 31) where the source wraps.
- comparisons of the form (s).sqrt() < c, with c a nonnegative constant,
  are modelled by the equivalent squared comparison s < c * c, since
  square root is monotone and both sides are nonnegative.
- the Bevy ECS is modelled by explicit state passing: a World record
  holds the AppState and GameState resources and the Player, Platform
  and Fruit entities. Commands (spawn and despawn) are deferred in Bevy:
  a Query iterated inside a system still sees the entity set from before
  the system ran. Each system is therefore a function from the old World
  (its query snapshot) to the new World.
-/

/-- WINDOW_WIDTH constant from main.rs (1200.0). -/
def WINDOW_WIDTH : ℚ := 1200

/-- WINDOW_HEIGHT constant from main.rs (800.0). -/
def WINDOW_HEIGHT : ℚ := 800

/-- PLAYER_SPEED constant from main.rs (300.0). -/
def PLAYER_SPEED : ℚ := 300

/-- AIR_CONTROL constant from main.rs (1.0). -/
def AIR_CONTROL : ℚ := 1

/-- JUMP_SPEED constant from main.rs (700.0). -/
def JUMP_SPEED : ℚ := 700

/-- GRAVITY constant from main.rs (2000.0). -/
def GRAVITY : ℚ := 2000

/-- One step of the linear congruential generator used both in
generate_random_platforms_with_seed and in setup_fruits_with_seed:
rng_state = (rng_state.wrapping_mul(1103515245).wrapping_add(12345)) % (1 << 31)
on a u64 state, modelled on Nat with explicit wrapping. -/
def lcg (s : Nat) : Nat := ((s * 1103515245) % 2 ^ 64 + 12345) % 2 ^ 64 % 2 ^ 31

/-- The Platform component of main.rs together with its Transform
translation: center position (x, y), width, and height (always 20.0). -/
structure Platform where
  x : ℚ
  y : ℚ
  width : ℚ
  height : ℚ
deriving DecidableEq, Repr

/-- The Player entity: Transform translation (px, py), Velocity (vx, vy)
and the Grounded component. -/
structure PlayerState where
  px : ℚ
  py : ℚ
  vx : ℚ
  vy : ℚ
  grounded : Bool
deriving DecidableEq, Repr

/-- Body of the platform loop in check_collisions for a single platform:
the AABB overlap test with minimum-overlap-axis resolution followed by
the additional lenient grounded check. The player bounds used by the
lenient check are the ones computed at the top of the loop iteration,
i.e. from the position before resolution, while its velocity test reads
the velocity after resolution, exactly as in the source. -/
def collidePlatform (s : PlayerState) (p : Platform) : PlayerState :=
  let player_left := s.px - 25
  let player_right := s.px + 25
  let player_bottom := s.py - 25
  let player_top := s.py + 25
  let platform_left := p.x - p.width / 2
  let platform_right := p.x + p.width / 2
  let platform_bottom := p.y - 10
  let platform_top := p.y + 10
  let s1 :=
    if player_right > platform_left ∧ player_left < platform_right ∧
       player_top > platform_bottom ∧ player_bottom < platform_top then
      let overlap_x := min (player_right - platform_left) (platform_right - player_left)
      let overlap_y := min (player_top - platform_bottom) (platform_top - player_bottom)
      if overlap_x < overlap_y then
        if s.px < p.x then
          { s with px := platform_left - 25, vx := 0 }
        else
          { s with px := platform_right + 25, vx := 0 }
      else
        if s.py < p.y then
          { s with py := platform_bottom - 25, vy := 0 }
        else
          { s with py := platform_top + 25,
                   vy := if s.vy ≤ 0 then 0 else s.vy,
                   grounded := true }
    else s
  if player_right > platform_left ∧ player_left < platform_right ∧
     player_bottom ≤ platform_top + 5 ∧ player_bottom ≥ platform_top - 5 ∧
     s1.vy ≤ 0 then
    { s1 with grounded := true }
  else s1

/-- The check_collisions system: reset grounded, fold the per-platform
resolution over all platforms, then clamp the horizontal position to the
window bounds. -/
def check_collisions (s : PlayerState) (platforms : List Platform) : PlayerState :=
  let s0 : PlayerState := { s with grounded := false }
  let s1 := platforms.foldl collidePlatform s0
  let half_width := WINDOW_WIDTH / 2
  if s1.px < -half_width + 25 then { s1 with px := -half_width + 25 }
  else if s1.px > half_width - 25 then { s1 with px := half_width - 25 }
  else s1

/-- Comparison (s).sqrt() < c on nonnegative f32 values, modelled by the
equivalent squared comparison (square root is monotone and c is a
nonnegative constant at both call sites, 80.0 and 30.0). -/
def sqrt_lt (s c : ℚ) : Bool := decide (s < c * c)

/-- MIN_PLATFORM_DISTANCE constant of generate_random_platforms_with_seed. -/
def MIN_PLATFORM_DISTANCE : ℚ := 80

/-- PLAYER_SIZE constant of generate_random_platforms_with_seed. -/
def PLAYER_SIZE : ℚ := 50

/-- MIN_GAP_FOR_PLAYER constant of generate_random_platforms_with_seed
(PLAYER_SIZE + 30.0). -/
def MIN_GAP_FOR_PLAYER : ℚ := PLAYER_SIZE + 30

/-- MIN_VERTICAL_GAP constant of generate_random_platforms_with_seed. -/
def MIN_VERTICAL_GAP : ℚ := 60

/-- The fixed starting platform (0.0, 100.0, width 200.0, height 20.0)
spawned first by generate_random_platforms_with_seed. -/
def startingPlatform : Platform := ⟨0, 100, 200, 20⟩

/-- The valid_position check of the generation loop for a candidate at
(x, y) with the given width, against the list of already accepted
platforms (spacing checks with early break, modelled by List.all), the
starting-area exclusion, and the window-bounds check. -/
def validPosition (x y width : ℚ) (platforms : List Platform) : Bool :=
  (platforms.all fun e =>
    let distance_x := |x - e.x|
    let distance_y := |y - e.y|
    let required_horizontal_gap := width / 2 + e.width / 2 + MIN_GAP_FOR_PLAYER
    (!(decide (distance_x < required_horizontal_gap) &&
       decide (distance_y < MIN_VERTICAL_GAP))) &&
    !(sqrt_lt (distance_x * distance_x + distance_y * distance_y) MIN_PLATFORM_DISTANCE)) &&
  (!(decide (|x| < 120) && decide (|y - 100| < 70))) &&
  (!(decide (|x| > WINDOW_WIDTH / 2 - width / 2 - 50) ||
     decide (|y| > WINDOW_HEIGHT / 2 - 100)))

/-- One attempt of the generation loop: draw width, x and y from three
successive LCG steps (width between 120 and 220, x in a centered range
scaled by WINDOW_WIDTH - width - 100, y in a centered range scaled by
WINDOW_HEIGHT - 150). Returns the candidate platform (height 20.0) and
the advanced rng state. -/
def genCandidate (rng : Nat) : Platform × Nat :=
  let r1 := lcg rng
  let width : ℚ := 120 + (((r1 % 1000 : Nat) : ℚ) / 1000) * 100
  let r2 := lcg r1
  let x : ℚ := (((r2 % 1000 : Nat) : ℚ) / 1000 - 1 / 2) * (WINDOW_WIDTH - width - 100)
  let r3 := lcg r2
  let y : ℚ := (((r3 % 1000 : Nat) : ℚ) / 1000 - 1 / 2) * (WINDOW_HEIGHT - 150)
  (⟨x, y, width, 20⟩, r3)

/-- The while loop of generate_random_platforms_with_seed. The fuel
argument is the remaining attempt budget (max_attempts - attempts);
each iteration draws a candidate, appends it when valid_position
accepts it, and recurses. Returns the platform list, the final rng
state, and the number of attempts consumed. -/
def genLoop : Nat → Nat → Nat → List Platform → List Platform × Nat × Nat
  | 0, _, rng, acc => (acc, rng, 0)
  | fuel + 1, target, rng, acc =>
    if acc.length < target + 1 then
      let c := genCandidate rng
      let acc' := if validPosition c.1.x c.1.y c.1.width acc then acc ++ [c.1] else acc
      let r := genLoop fuel target c.2 acc'
      (r.1, r.2.1, r.2.2 + 1)
    else (acc, rng, 0)

/-- Target platform count of the generation: num_platforms = 6 plus the
first LCG draw mod 5 (range 6 to 10). -/
def numPlatforms (seed : Nat) : Nat := 6 + lcg seed % 5

/-- generate_random_platforms_with_seed: spawn the starting platform,
seed the LCG, draw the target count, and run the placement loop with an
attempt budget of num_platforms * 10. Returns the spawned platform list
in spawn order, the final rng state and the attempts consumed. -/
def generate_random_platforms_with_seed (seed : Nat) : List Platform × Nat × Nat :=
  let r0 := lcg seed
  let num_platforms := 6 + r0 % 5
  genLoop (num_platforms * 10) num_platforms r0 [startingPlatform]

/-- The platform list spawned by generate_random_platforms_with_seed. -/
def generatedPlatforms (seed : Nat) : List Platform :=
  (generate_random_platforms_with_seed seed).1

/-- The number of loop attempts consumed by
generate_random_platforms_with_seed. -/
def generationAttempts (seed : Nat) : Nat :=
  (generate_random_platforms_with_seed seed).2.2

/-- Spacing property of a pair of platforms, as stated in the spec:
when the horizontal center distance is below the required gap
(half widths plus player width plus 30) the vertical center distance is
at least 60, and the squared Euclidean center distance is at least
80 * 80 (equivalently, the Euclidean center distance is at least 80). -/
def pairOkB (a b : Platform) : Bool :=
  (!(decide (|a.x - b.x| < a.width / 2 + b.width / 2 + PLAYER_SIZE + 30) &&
     decide (|a.y - b.y| < 60))) &&
  decide (80 * 80 ≤ (a.x - b.x) * (a.x - b.x) + (a.y - b.y) * (a.y - b.y))

/-- Every pair of distinct positions in the list satisfies pairOkB. -/
def pairwiseOkB : List Platform → Bool
  | [] => true
  | p :: rest => rest.all (fun q => pairOkB p q) && pairwiseOkB rest

/-- Window-bounds property of a generated platform, as stated in the
spec: the center lies within half the window width minus half the
platform width minus 50 horizontally, and within half the window height
minus 100 vertically. -/
def inBoundsB (p : Platform) : Bool :=
  decide (|p.x| ≤ WINDOW_WIDTH / 2 - p.width / 2 - 50) &&
  decide (|p.y| ≤ WINDOW_HEIGHT / 2 - 100)

/-- setup_fruits_with_seed, abstracted over its platform query snapshot
(the list of platform center positions visible to the system) and the
seed: filter out positions with y = 100.0, return none when no candidate
remains, otherwise pick the index given by one LCG step of
seed.wrapping_mul(73) modulo the candidate count and place the fruit
at (x, y + 10.0 + 12.5). -/
def setup_fruits_with_seed (positions : List (ℚ × ℚ)) (seed : Nat) : Option (ℚ × ℚ) :=
  let platform_positions := positions.filter fun pos => pos.2 ≠ 100
  if h : platform_positions = [] then none
  else
    let rng_state := seed * 73 % 2 ^ 64
    let rng_state' := lcg rng_state
    let index := rng_state' % platform_positions.length
    let platform_pos := platform_positions.get ⟨index, Nat.mod_lt _ (by
      simpa [List.length_pos] using h)⟩
    some (platform_pos.1, platform_pos.2 + 10 + 12.5)

/-- The AppState resource enum of main.rs. -/
inductive AppState
  | MainMenu
  | InGame
  | GameOver
deriving DecidableEq, Repr

/-- The full simulation state: the AppState and GameState resources
(lives and level are u32, modelled as Nat) and the Player, Platform and
Fruit entity sets (at most one player and one fruit exist). -/
structure World where
  app_state : AppState
  lives : Nat
  level : Nat
  player : Option PlayerState
  platforms : List Platform
  fruit : Option (ℚ × ℚ)
deriving DecidableEq, Repr

/-- The initial state: AppState and GameState defaults (MainMenu,
lives 3, level 1) with no entities spawned yet. -/
def initWorld : World := ⟨AppState.MainMenu, 3, 1, none, [], none⟩

/-- A freshly spawned player: Transform (0, 200), zero Velocity,
Grounded(false). This is the spawn used at game setup, at respawn after
death, and at restart. -/
def initialPlayer : PlayerState := ⟨0, 200, 0, 0, false⟩

/-- The player_movement system on the player entity: horizontal input
scaled by PLAYER_SPEED and by AIR_CONTROL while airborne, and a jump
impulse on a fresh jump-key press while grounded. -/
def player_movement (left right jumpJust : Bool) (p : PlayerState) : PlayerState :=
  let horizontal_input : ℚ := (if left then -1 else 0) + (if right then 1 else 0)
  let movement_multiplier : ℚ := if p.grounded then 1 else AIR_CONTROL
  let p1 := { p with vx := horizontal_input * PLAYER_SPEED * movement_multiplier }
  if jumpJust && p1.grounded then { p1 with vy := JUMP_SPEED } else p1

/-- The apply_gravity system on the player entity. -/
def apply_gravity (dt : ℚ) (p : PlayerState) : PlayerState :=
  { p with vy := p.vy - GRAVITY * dt }

/-- The apply_velocity system on the player entity. -/
def apply_velocity (dt : ℚ) (p : PlayerState) : PlayerState :=
  { p with px := p.px + p.vx * dt, py := p.py + p.vy * dt }

/-- Lift an update of the player entity to the world. -/
def world_update_player (w : World) (f : PlayerState → PlayerState) : World :=
  { w with player := w.player.map f }

/-- handle_main_menu_input: on a fresh space press, despawn the menu UI
(not modelled) and switch to InGame. -/
def handle_main_menu_input (w : World) (spaceJust : Bool) : World :=
  if spaceJust then { w with app_state := AppState.InGame } else w

/-- setup_game_entities: when in game with no player and no platforms
(and no game UI, not modelled), spawn the player and generate the
initial platforms from a time-derived seed. -/
def setup_game_entities (w : World) (seed : Nat) : World :=
  if w.app_state = AppState.InGame ∧ w.player = none ∧ w.platforms = [] then
    { w with player := some initialPlayer, platforms := generatedPlatforms seed }
  else w

/-- setup_fruits_when_ready: when in game with platforms but no fruit,
place a fruit using a time-derived seed plus 99. -/
def setup_fruits_when_ready (w : World) (seed : Nat) : World :=
  if w.app_state = AppState.InGame ∧ w.platforms ≠ [] ∧ w.fruit = none then
    { w with fruit :=
        setup_fruits_with_seed (w.platforms.map fun p => (p.x, p.y)) (seed + 99) }
  else w

/-- check_fruit_collection for the tick at wall-clock time t (nanos):
when the player is within distance 30 of the fruit, despawn the fruit,
increment the level, despawn all platforms, reset the player transform
and velocity (the Grounded component is untouched), generate new
platforms from seed t + level * 1000, and place the new fruit with seed
+ 42. The platform query snapshot passed to setup_fruits_with_seed is
the entity set from before this system ran (commands are deferred), so
the new fruit is placed from the old platform list. -/
def check_fruit_collection (w : World) (t : Nat) : World :=
  match w.player, w.fruit with
  | some pl, some fr =>
    if sqrt_lt ((pl.px - fr.1) * (pl.px - fr.1) + (pl.py - fr.2) * (pl.py - fr.2)) 30 then
      let level' := w.level + 1
      let random_seed := t + level' * 1000
      { w with
          level := level',
          player := some { pl with px := 0, py := 200, vx := 0, vy := 0 },
          platforms := generatedPlatforms random_seed,
          fruit := setup_fruits_with_seed
            (w.platforms.map fun p => (p.x, p.y)) (random_seed + 42) }
    else w
  | _, _ => w

/-- Checked u32 subtraction: the error branch models the overflow panic
of a bare subtraction on u32. -/
def u32_checked_sub (a b : Nat) : Option Nat :=
  if b ≤ a then some (a - b) else none

/-- The lives update performed by check_player_death: the subtraction
lives -= 1 guarded by lives > 0, with the subtraction modelled as
checked u32 subtraction (none models an underflow panic). -/
def lives_after_death (lives : Nat) : Option Nat :=
  if 0 < lives then u32_checked_sub lives 1 else some lives

/-- check_player_death: when the player has fallen below
-WINDOW_HEIGHT / 2, decrement lives under the lives > 0 guard and
despawn the player; with no lives left, switch to GameOver and clear
the fruit only (platforms retained); otherwise respawn the player at
(0, 200) with zero velocity. -/
def check_player_death (w : World) : World :=
  match w.player with
  | none => w
  | some pl =>
    if pl.py < -(WINDOW_HEIGHT / 2) then
      let lives' := (lives_after_death w.lives).getD w.lives
      if lives' = 0 then
        { w with lives := lives', player := none,
                 app_state := AppState.GameOver, fruit := none }
      else
        { w with lives := lives', player := some initialPlayer }
    else w

/-- handle_game_over_input: on R, despawn the game-over UI (not
modelled), despawn all platforms and fruits, regenerate platforms from
a time seed, respawn the player, reset lives to 3 and level to 1, and
return to InGame; on Escape, return to the main menu. -/
def handle_game_over_input (w : World) (seed : Nat) (rJust escJust : Bool) : World :=
  if rJust then
    { w with platforms := generatedPlatforms seed, fruit := none,
             player := some initialPlayer, lives := 3, level := 1,
             app_state := AppState.InGame }
  else if escJust then { w with app_state := AppState.MainMenu }
  else w

/-- The states reachable from the initial world under the Update
schedule of main.rs: each system may fire on a tick when its run_if
condition holds, with arbitrary inputs, delta times and time-derived
seeds. -/
inductive Reachable : World → Prop
  | init : Reachable initWorld
  | main_menu {w : World} (b : Bool) : Reachable w →
      w.app_state = AppState.MainMenu → Reachable (handle_main_menu_input w b)
  | game_over {w : World} (seed : Nat) (r e : Bool) : Reachable w →
      w.app_state = AppState.GameOver → Reachable (handle_game_over_input w seed r e)
  | setup_entities {w : World} (seed : Nat) : Reachable w →
      w.app_state = AppState.InGame → Reachable (setup_game_entities w seed)
  | fruits_ready {w : World} (seed : Nat) : Reachable w →
      w.app_state = AppState.InGame → Reachable (setup_fruits_when_ready w seed)
  | movement {w : World} (l r j : Bool) : Reachable w →
      w.app_state = AppState.InGame →
      Reachable (world_update_player w (player_movement l r j))
  | gravity {w : World} (dt : ℚ) : Reachable w →
      w.app_state = AppState.InGame →
      Reachable (world_update_player w (apply_gravity dt))
  | velocity {w : World} (dt : ℚ) : Reachable w →
      w.app_state = AppState.InGame →
      Reachable (world_update_player w (apply_velocity dt))
  | collisions {w : World} : Reachable w →
      w.app_state = AppState.InGame →
      Reachable (world_update_player w (fun p => check_collisions p w.platforms))
  | fruit_collection {w : World} (t : Nat) : Reachable w →
      w.app_state = AppState.InGame → Reachable (check_fruit_collection w t)
  | player_death {w : World} : Reachable w →
      w.app_state = AppState.InGame → Reachable (check_player_death w)

lemma genLoop_invariant {P : List Platform → Prop}
    (hstep : ∀ acc c, P acc → validPosition c.x c.y c.width acc = true → P (acc ++ [c])) :
    ∀ fuel target rng acc, P acc → P (genLoop fuel target rng acc).1 := by
  intro fuel
  induction fuel with
  | zero => intro target rng acc h; simpa [genLoop] using h
  | succ n ih =>
    intro target rng acc h
    simp only [genLoop]
    split
    · dsimp only
      split
      case isTrue hv => exact ih target _ _ (hstep _ _ h hv)
      case isFalse hv => exact ih target _ _ h
    · exact h

lemma genLoop_budget : ∀ fuel target rng acc, acc.length ≤ target + 1 →
    (genLoop fuel target rng acc).2.2 ≤ fuel ∧
    (genLoop fuel target rng acc).1.length ≤ target + 1 ∧
    ((genLoop fuel target rng acc).2.2 = fuel ∨
     (genLoop fuel target rng acc).1.length = target + 1) := by
  intro fuel
  induction fuel with
  | zero => intro target rng acc h; simp [genLoop, h]
  | succ n ih =>
    intro target rng acc h
    simp only [genLoop]
    split
    case isTrue hlt =>
      dsimp only
      split
      case isTrue hv =>
        obtain ⟨ha, hl, hd⟩ := ih target (genCandidate rng).2 (acc ++ [(genCandidate rng).1])
          (by simp; omega)
        refine ⟨by omega, hl, ?_⟩
        rcases hd with hd | hd
        · exact Or.inl (by omega)
        · exact Or.inr hd
      case isFalse hv =>
        obtain ⟨ha, hl, hd⟩ := ih target (genCandidate rng).2 acc (by omega)
        refine ⟨by omega, hl, ?_⟩
        rcases hd with hd | hd
        · exact Or.inl (by omega)
        · exact Or.inr hd
    case isFalse hge =>
      dsimp only
      exact ⟨by omega, h, Or.inr (by omega)⟩

/-- C5: for every seed, the platform list produced by
generate_random_platforms_with_seed includes, as its first element, the
fixed starting platform at position (0, 100) with width 200 and
height 20. -/
theorem generated_head_is_starting_platform (seed : Nat) :
    ∃ rest, generatedPlatforms seed = (⟨0, 100, 200, 20⟩ : Platform) :: rest := by
  have h := genLoop_invariant (P := fun l => ∃ rest, l = startingPlatform :: rest)
    (fun acc c hp _ => by
      obtain ⟨rest, hrest⟩ := hp
      exact ⟨rest ++ [c], by simp [hrest]⟩)
    ((6 + lcg seed % 5) * 10) (6 + lcg seed % 5) (lcg seed) [startingPlatform] ⟨[], rfl⟩
  simpa [generatedPlatforms, generate_random_platforms_with_seed, startingPlatform] using h

/-- C4: platform generation is a deterministic function of its seed: two
calls of generate_random_platforms_with_seed with the same seed produce
identical platform lists, in particular the same count, the same
positions, and the same widths, in the same order. -/
theorem generation_deterministic (s₁ s₂ : Nat) (h : s₁ = s₂) :
    generatedPlatforms s₁ = generatedPlatforms s₂ ∧
    (generatedPlatforms s₁).length = (generatedPlatforms s₂).length ∧
    (generatedPlatforms s₁).map (fun p => (p.x, p.y)) =
      (generatedPlatforms s₂).map (fun p => (p.x, p.y)) ∧
    (generatedPlatforms s₁).map Platform.width =
      (generatedPlatforms s₂).map Platform.width := by
  subst h
  exact ⟨rfl, rfl, rfl, rfl⟩

/-- Witness for C4 at the concrete seed 12345. -/
theorem generation_deterministic_witness :
    generatedPlatforms 12345 = generatedPlatforms 12345 ∧
    (generatedPlatforms 12345).length = (generatedPlatforms 12345).length ∧
    (generatedPlatforms 12345).map (fun p => (p.x, p.y)) =
      (generatedPlatforms 12345).map (fun p => (p.x, p.y)) ∧
    (generatedPlatforms 12345).map Platform.width =
      (generatedPlatforms 12345).map Platform.width :=
  generation_deterministic 12345 12345 rfl

/-- C7: for every seed, the generation loop consumes at most
num_platforms * 10 attempts (where num_platforms = 6 plus the first LCG
draw mod 5), the resulting list never exceeds num_platforms + 1
platforms, and a run that ends with fewer than num_platforms + 1
platforms can only have ended by exhausting the attempt budget; the
function is total, so budget exhaustion yields a short list rather than
an error. -/
theorem generation_attempt_budget (seed : Nat) :
    generationAttempts seed ≤ numPlatforms seed * 10 ∧
    (generatedPlatforms seed).length ≤ numPlatforms seed + 1 ∧
    (generationAttempts seed = numPlatforms seed * 10 ∨
     (generatedPlatforms seed).length = numPlatforms seed + 1) := by
  have h := genLoop_budget ((6 + lcg seed % 5) * 10) (6 + lcg seed % 5) (lcg seed)
    [startingPlatform] (by simp)
  simpa [generationAttempts, generatedPlatforms, generate_random_platforms_with_seed,
    numPlatforms] using h

lemma generatedPlatforms_eq (seed : Nat) :
    generatedPlatforms seed =
      (genLoop ((6 + lcg seed % 5) * 10) (6 + lcg seed % 5) (lcg seed) [startingPlatform]).1 :=
  rfl

lemma validPosition_spec {c : Platform} {acc : List Platform}
    (h : validPosition c.x c.y c.width acc = true) :
    (∀ e ∈ acc, pairOkB e c = true) ∧ inBoundsB c = true := by
  unfold validPosition at h
  rw [Bool.and_eq_true, Bool.and_eq_true] at h
  obtain ⟨⟨hall, _hstart⟩, hbounds⟩ := h
  rw [List.all_eq_true] at hall
  rw [Bool.not_eq_true', Bool.or_eq_false_iff] at hbounds
  obtain ⟨hbx, hby⟩ := hbounds
  replace hbx := of_decide_eq_false hbx
  replace hby := of_decide_eq_false hby
  constructor
  · intro e he
    have hf := hall e he
    dsimp only at hf
    rw [Bool.and_eq_true, Bool.not_eq_true', Bool.not_eq_true', Bool.and_eq_false_iff] at hf
    obtain ⟨hgap, hdist⟩ := hf
    unfold sqrt_lt at hdist
    have hd := le_of_not_lt (of_decide_eq_false hdist)
    unfold pairOkB
    rw [Bool.and_eq_true, Bool.not_eq_true', Bool.and_eq_false_iff]
    constructor
    · rcases hgap with hg | hv
      · replace hg := of_decide_eq_false hg
        left
        rw [decide_eq_false_iff_not]
        intro hlt
        refine hg ?_
        rw [abs_sub_comm]
        simp only [MIN_GAP_FOR_PLAYER] at *
        linarith
      · replace hv := of_decide_eq_false hv
        right
        rw [decide_eq_false_iff_not]
        intro hlt
        refine hv ?_
        rw [abs_sub_comm]
        simp only [MIN_VERTICAL_GAP] at *
        linarith
    · rw [decide_eq_true_eq]
      simp only [MIN_PLATFORM_DISTANCE] at hd
      nlinarith [hd, abs_mul_abs_self (c.x - e.x), abs_mul_abs_self (c.y - e.y)]
  · unfold inBoundsB
    rw [Bool.and_eq_true, decide_eq_true_eq, decide_eq_true_eq]
    exact ⟨le_of_not_lt hbx, le_of_not_lt hby⟩

lemma pairwiseOkB_append (l : List Platform) (c : Platform) :
    pairwiseOkB (l ++ [c]) = (pairwiseOkB l && l.all fun e => pairOkB e c) := by
  induction l with
  | nil => simp [pairwiseOkB]
  | cons a t ih =>
    show (((t ++ [c]).all fun q => pairOkB a q) && pairwiseOkB (t ++ [c])) =
      (((t.all fun q => pairOkB a q) && pairwiseOkB t) && ((a :: t).all fun e => pairOkB e c))
    rw [List.all_append, ih, List.all_cons, List.all_cons, List.all_nil, Bool.and_true]
    cases pairOkB a c <;> cases pairwiseOkB t <;>
      cases t.all (fun q => pairOkB a q) <;> cases t.all (fun e => pairOkB e c) <;> rfl

/-- C2: for every seed, the platform list produced by
generate_random_platforms_with_seed (the starting platform included)
satisfies pairwise spacing — horizontal center distance below
width1 / 2 + width2 / 2 + player width + 30 forces vertical center
distance at least 60, and squared Euclidean center distance is at least
80 * 80 — and every generated (non-starting) platform lies within
half the window width minus half its width minus 50 horizontally and
half the window height minus 100 vertically. -/
theorem platform_spacing_invariant (seed : Nat) :
    pairwiseOkB (generatedPlatforms seed) = true ∧
    ((generatedPlatforms seed).drop 1).all inBoundsB = true := by
  have h := genLoop_invariant
    (P := fun l => (pairwiseOkB l = true ∧ (l.drop 1).all inBoundsB = true) ∧ l ≠ [])
    (fun acc c hp hv => by
      obtain ⟨⟨hpw, hbnd⟩, hne⟩ := hp
      obtain ⟨hpair, hbound⟩ := validPosition_spec hv
      refine ⟨⟨?_, ?_⟩, by simp⟩
      · rw [pairwiseOkB_append, hpw, Bool.true_and, List.all_eq_true]
        exact hpair
      · cases acc with
        | nil => exact absurd rfl hne
        | cons a t =>
          simpa [List.all_append, hbound] using hbnd)
    ((6 + lcg seed % 5) * 10) (6 + lcg seed % 5) (lcg seed) [startingPlatform]
    ⟨⟨by simp [pairwiseOkB], by simp⟩, by simp⟩
  rw [generatedPlatforms_eq]
  exact h.1

lemma collidePlatform_vertical {s : PlayerState} {p : Platform}
    (h1 : s.px + 25 > p.x - p.width / 2) (h2 : s.px - 25 < p.x + p.width / 2)
    (h3 : s.py + 25 > p.y - 10) (h4 : s.py - 25 < p.y + 10)
    (hvert : ¬(min (s.px + 25 - (p.x - p.width / 2)) (p.x + p.width / 2 - (s.px - 25)) <
               min (s.py + 25 - (p.y - 10)) (p.y + 10 - (s.py - 25)))) :
    (¬(s.py < p.y) →
      collidePlatform s p =
        { s with py := p.y + 10 + 25, vy := if s.vy ≤ 0 then 0 else s.vy,
                 grounded := true }) ∧
    (s.py < p.y →
      collidePlatform s p = { s with py := p.y - 10 - 25, vy := 0 }) := by
  have hovl : s.px + 25 > p.x - p.width / 2 ∧ s.px - 25 < p.x + p.width / 2 ∧
      s.py + 25 > p.y - 10 ∧ s.py - 25 < p.y + 10 := ⟨h1, h2, h3, h4⟩
  constructor
  · intro habove
    simp only [collidePlatform]
    rw [if_pos hovl, if_neg hvert, if_neg habove]
    split <;> split <;> rfl
  · intro hbelow
    simp only [collidePlatform]
    rw [if_pos hovl, if_neg hvert, if_pos hbelow]
    split
    case isTrue hc =>
      exfalso
      obtain ⟨_, _, _, hge, _⟩ := hc
      linarith
    case isFalse hc => rfl

/-- C1: in collision resolution, when the player box overlaps a platform
on both axes and the vertical overlap is strictly the smaller axis, the
code resolves along the vertical axis; if the player center is above the
platform center, the player is pushed up onto the top surface
(center y = platform y + 10 + 25), the vertical velocity is zeroed only
when it is non-positive (upward velocity is preserved), and grounded is
set; if the player center is below the platform center, the player is
pushed down below the platform (center y = platform y - 10 - 25), the
vertical velocity is zeroed, and grounded is left as it was before that
branch. -/
theorem collision_vertical_resolution (s : PlayerState) (p : Platform)
    (h1 : s.px + 25 > p.x - p.width / 2) (h2 : s.px - 25 < p.x + p.width / 2)
    (h3 : s.py + 25 > p.y - 10) (h4 : s.py - 25 < p.y + 10)
    (hsmaller : min (s.py + 25 - (p.y - 10)) (p.y + 10 - (s.py - 25)) <
                min (s.px + 25 - (p.x - p.width / 2)) (p.x + p.width / 2 - (s.px - 25))) :
    (p.y < s.py →
      (collidePlatform s p).py = p.y + 10 + 25 ∧
      (collidePlatform s p).vy = (if s.vy ≤ 0 then 0 else s.vy) ∧
      (collidePlatform s p).grounded = true) ∧
    (s.py < p.y →
      (collidePlatform s p).py = p.y - 10 - 25 ∧
      (collidePlatform s p).vy = 0 ∧
      (collidePlatform s p).grounded = s.grounded) := by
  have h := collidePlatform_vertical h1 h2 h3 h4 (not_lt.mpr (le_of_lt hsmaller))
  constructor
  · intro habove
    rw [h.1 (not_lt.mpr (le_of_lt habove))]
    exact ⟨rfl, rfl, rfl⟩
  · intro hbelow
    rw [h.2 hbelow]
    exact ⟨rfl, rfl, rfl⟩

/-- Witness for C1: a player at (0, 130) moving upward at 80 overlapping
the starting platform lands on its top at y = 135, keeps its upward
velocity, and is grounded. -/
theorem collision_vertical_resolution_witness :
    (collidePlatform ⟨0, 130, 0, 80, false⟩ ⟨0, 100, 200, 20⟩).py =
      (100 : ℚ) + 10 + 25 ∧
    (collidePlatform ⟨0, 130, 0, 80, false⟩ ⟨0, 100, 200, 20⟩).vy =
      (if (80 : ℚ) ≤ 0 then 0 else 80) ∧
    (collidePlatform ⟨0, 130, 0, 80, false⟩ ⟨0, 100, 200, 20⟩).grounded = true :=
  (collision_vertical_resolution ⟨0, 130, 0, 80, false⟩ ⟨0, 100, 200, 20⟩
    (by norm_num) (by norm_num) (by norm_num) (by norm_num)
    (by rw [min_def, min_def]; norm_num)).1 (by norm_num)

/-- Counterexample for C3: the player at (0, 130) falling at -50 and
overlapping the top of the platform at (0, 100) with width 200 resolves
to position.y = 135 (platform top 110 plus half the player height 25),
not 125 as the claim states; velocity.y and grounded behave as claimed. -/
theorem landing_position_not_125 :
    (collidePlatform ⟨0, 130, 0, -50, false⟩ ⟨0, 100, 200, 20⟩).py = 135 ∧
    (collidePlatform ⟨0, 130, 0, -50, false⟩ ⟨0, 100, 200, 20⟩).py ≠ 125 ∧
    (collidePlatform ⟨0, 130, 0, -50, false⟩ ⟨0, 100, 200, 20⟩).vy = 0 ∧
    (collidePlatform ⟨0, 130, 0, -50, false⟩ ⟨0, 100, 200, 20⟩).grounded = true := by
  have h : collidePlatform ⟨0, 130, 0, -50, false⟩ ⟨0, 100, 200, 20⟩ =
      ⟨0, 135, 0, 0, true⟩ := by
    simp only [collidePlatform]
    norm_num
  rw [h]
  refine ⟨rfl, by norm_num, rfl, rfl⟩

/-- C3 (amended): a player box overlapping the top of the platform
at (0, 100) with width 200 while falling with vertical velocity -50,
when resolved along the vertical axis, ends with position.y = 135
(not 125), velocity.y = 0, and grounded = true. -/
theorem landing_on_starting_platform (px py vx : ℚ) (g : Bool)
    (h1 : px + 25 > 0 - 200 / 2) (h2 : px - 25 < 0 + 200 / 2)
    (h3 : py + 25 > 100 - 10) (h4 : py - 25 < 100 + 10)
    (hvert : ¬(min (px + 25 - (0 - 200 / 2)) (0 + 200 / 2 - (px - 25)) <
               min (py + 25 - (100 - 10)) (100 + 10 - (py - 25))))
    (habove : (100 : ℚ) < py) :
    (collidePlatform ⟨px, py, vx, -50, g⟩ ⟨0, 100, 200, 20⟩).py = 135 ∧
    (collidePlatform ⟨px, py, vx, -50, g⟩ ⟨0, 100, 200, 20⟩).vy = 0 ∧
    (collidePlatform ⟨px, py, vx, -50, g⟩ ⟨0, 100, 200, 20⟩).grounded = true := by
  have h := (collidePlatform_vertical (s := ⟨px, py, vx, -50, g⟩) (p := ⟨0, 100, 200, 20⟩)
    h1 h2 h3 h4 hvert).1 (not_lt.mpr (le_of_lt habove))
  rw [h]
  refine ⟨by norm_num, by norm_num, rfl⟩

/-- Witness for C3 (amended) at the concrete player position (0, 130). -/
theorem landing_on_starting_platform_witness :
    (collidePlatform ⟨0, 130, 0, -50, false⟩ ⟨0, 100, 200, 20⟩).py = 135 ∧
    (collidePlatform ⟨0, 130, 0, -50, false⟩ ⟨0, 100, 200, 20⟩).vy = 0 ∧
    (collidePlatform ⟨0, 130, 0, -50, false⟩ ⟨0, 100, 200, 20⟩).grounded = true :=
  landing_on_starting_platform 0 130 0 false
    (by norm_num) (by norm_num) (by norm_num) (by norm_num)
    (by rw [min_def, min_def]; norm_num) (by norm_num)

lemma setup_fruits_mem {positions : List (ℚ × ℚ)} {seed : Nat} {fr : ℚ × ℚ}
    (h : setup_fruits_with_seed positions seed = some fr) :
    ∃ pos, pos ∈ positions ∧ pos.2 ≠ 100 ∧ fr = (pos.1, pos.2 + 10 + 12.5) := by
  unfold setup_fruits_with_seed at h
  dsimp only at h
  split at h
  · exact absurd h (by simp)
  case isFalse hne =>
    rw [Option.some.injEq] at h
    have hmem := List.get_mem (positions.filter fun pos => pos.2 ≠ 100)
      (lcg (seed * 73 % 2 ^ 64) % (positions.filter fun pos => pos.2 ≠ 100).length)
      (Nat.mod_lt _ (by simpa [List.length_pos] using hne))
    exact ⟨_, (List.mem_filter.mp hmem).1,
      of_decide_eq_true (List.mem_filter.mp hmem).2, h.symm⟩

/-- C6: fruit placement filters out every platform position whose y
equals 100 (the starting anchor), so a placed fruit is never on the
starting platform; with no candidates (in particular on the empty list)
it returns none rather than an error; with candidates, the selected
index is one LCG step of seed * 73 modulo the candidate count and the
fruit position is (platform x, platform y + 10 + 12.5). -/
theorem fruit_placement_spec (positions : List (ℚ × ℚ)) (seed : Nat) :
    ((positions.filter fun pos => pos.2 ≠ 100) = [] →
      setup_fruits_with_seed positions seed = none) ∧
    setup_fruits_with_seed [] seed = none ∧
    (∀ fr, setup_fruits_with_seed positions seed = some fr →
      ∃ pos, pos ∈ positions ∧ pos.2 ≠ 100 ∧ fr = (pos.1, pos.2 + 10 + 12.5)) ∧
    (∀ hne : (positions.filter fun pos => pos.2 ≠ 100) ≠ [],
      setup_fruits_with_seed positions seed =
        some (((positions.filter fun pos => pos.2 ≠ 100).get
            ⟨lcg (seed * 73 % 2 ^ 64) % (positions.filter fun pos => pos.2 ≠ 100).length,
             Nat.mod_lt _ (List.length_pos.mpr hne)⟩).1,
          ((positions.filter fun pos => pos.2 ≠ 100).get
            ⟨lcg (seed * 73 % 2 ^ 64) % (positions.filter fun pos => pos.2 ≠ 100).length,
             Nat.mod_lt _ (List.length_pos.mpr hne)⟩).2 + 10 + 12.5)) := by
  refine ⟨?_, ?_, ?_, ?_⟩
  · intro h
    unfold setup_fruits_with_seed
    rw [dif_pos h]
  · rfl
  · intro fr h
    exact setup_fruits_mem h
  · intro hne
    unfold setup_fruits_with_seed
    rw [dif_neg hne]

lemma setup_fruits_singleton {positions : List (ℚ × ℚ)} {seed : Nat} {q : ℚ × ℚ}
    (hfil : (positions.filter fun pos => pos.2 ≠ 100) = [q]) :
    setup_fruits_with_seed positions seed = some (q.1, q.2 + 10 + 12.5) := by
  have hne : (positions.filter fun pos => pos.2 ≠ 100) ≠ [] := by
    rw [hfil]
    simp
  have hget : ∀ i, (positions.filter fun pos => pos.2 ≠ 100).get i = q := by
    rw [hfil]
    intro i
    exact List.eq_of_mem_singleton (List.get_mem _ i.1 i.isLt)
  unfold setup_fruits_with_seed
  dsimp only
  rw [dif_neg hne]
  rw [hget]

/-- Witness for C6: a list holding only the starting anchor yields no
fruit, and with one other platform present the fruit sits on it. -/
theorem fruit_placement_spec_witness :
    setup_fruits_with_seed [((0 : ℚ), (100 : ℚ))] 5 = none ∧
    setup_fruits_with_seed [((0 : ℚ), (100 : ℚ)), (50, 200)] 0 =
      some (50, 200 + 10 + 12.5) := by
  constructor
  · refine (fruit_placement_spec [((0 : ℚ), (100 : ℚ))] 5).1 ?_
    rw [List.filter_cons, List.filter_nil]
    norm_num
  · refine (setup_fruits_singleton (q := ((50 : ℚ), (200 : ℚ))) ?_).trans rfl
    rw [List.filter_cons, List.filter_cons, List.filter_nil]
    norm_num

lemma lives_handle_main_menu_input (w : World) (b : Bool) :
    (handle_main_menu_input w b).lives = w.lives := by
  unfold handle_main_menu_input
  split <;> rfl

lemma lives_setup_game_entities (w : World) (seed : Nat) :
    (setup_game_entities w seed).lives = w.lives := by
  unfold setup_game_entities
  split <;> rfl

lemma lives_setup_fruits_when_ready (w : World) (seed : Nat) :
    (setup_fruits_when_ready w seed).lives = w.lives := by
  unfold setup_fruits_when_ready
  split <;> rfl

lemma lives_check_fruit_collection (w : World) (t : Nat) :
    (check_fruit_collection w t).lives = w.lives := by
  unfold check_fruit_collection
  rcases w.player with _ | pl <;> rcases w.fruit with _ | fr <;> dsimp only
  split <;> rfl

lemma lives_check_player_death_le (w : World) :
    (check_player_death w).lives ≤ w.lives := by
  have hval : (lives_after_death w.lives).getD w.lives ≤ w.lives := by
    unfold lives_after_death u32_checked_sub
    by_cases h : 0 < w.lives
    · rw [if_pos h, if_pos (by omega)]
      simp only [Option.getD_some]
      omega
    · rw [if_neg h]
      simp only [Option.getD_some]
      exact le_refl _
  unfold check_player_death
  rcases hp : w.player with _ | pl <;> dsimp only
  · exact le_refl _
  · split
    · split <;> exact hval
    · exact le_refl _

lemma lives_handle_game_over_input (w : World) (seed : Nat) (r e : Bool) :
    (handle_game_over_input w seed r e).lives = 3 ∨
    (handle_game_over_input w seed r e).lives = w.lives := by
  unfold handle_game_over_input
  split
  · exact Or.inl rfl
  · split <;> exact Or.inr rfl

/-- C10: the lives counter is decremented only under the guard
lives > 0, so the checked u32 subtraction in check_player_death never
hits its error branch (it always yields a value), and in every
reachable world the lives counter lies between 0 and 3. -/
theorem lives_guarded_and_bounded :
    (∀ l, lives_after_death l = some (if 0 < l then l - 1 else l)) ∧
    (∀ w, Reachable w → w.lives ≤ 3) := by
  constructor
  · intro l
    unfold lives_after_death u32_checked_sub
    by_cases h : 0 < l
    · rw [if_pos h, if_pos (by omega), if_pos h]
    · rw [if_neg h, if_neg h]
  · intro w h
    induction h with
    | init => norm_num [initWorld]
    | main_menu b hr hst ih => rw [lives_handle_main_menu_input]; exact ih
    | game_over seed r e hr hst ih =>
      rcases lives_handle_game_over_input _ seed r e with h | h <;> rw [h]
      exact ih
    | setup_entities seed hr hst ih => rw [lives_setup_game_entities]; exact ih
    | fruits_ready seed hr hst ih => rw [lives_setup_fruits_when_ready]; exact ih
    | movement l r j hr hst ih => exact ih
    | gravity dt hr hst ih => exact ih
    | velocity dt hr hst ih => exact ih
    | collisions hr hst ih => exact ih
    | fruit_collection t hr hst ih => rw [lives_check_fruit_collection]; exact ih
    | player_death hr hst ih => exact le_trans (lives_check_player_death_le _) ih

/-- Witness for C10: the initial world is reachable with lives within
bounds, and the guarded decrement evaluates at lives = 3. -/
theorem lives_guarded_and_bounded_witness :
    initWorld.lives ≤ 3 ∧ lives_after_death 3 = some (if 0 < 3 then 3 - 1 else 3) :=
  ⟨lives_guarded_and_bounded.2 initWorld Reachable.init,
   lives_guarded_and_bounded.1 3⟩

/-- C8: within the game, a player below -WINDOW_HEIGHT / 2 with at
least one life causes: lives decremented by one and the level left
unchanged; with lives remaining, the player is respawned at (0, 200)
with zero velocity while platforms and fruit are untouched; with no
lives remaining, the state switches to GameOver, only the fruit is
cleared among the level entities (platforms retained, the dead player
stays despawned), and the lives = 3, level = 1 reset happens only at
the restart input, not at the death event. -/
theorem player_death_frame_effect (w : World) (pl : PlayerState)
    (hpl : w.player = some pl)
    (hfall : pl.py < -(WINDOW_HEIGHT / 2))
    (hlives : 0 < w.lives) :
    (check_player_death w).lives = w.lives - 1 ∧
    (check_player_death w).level = w.level ∧
    (0 < w.lives - 1 →
      (check_player_death w).player = some initialPlayer ∧
      (check_player_death w).platforms = w.platforms ∧
      (check_player_death w).fruit = w.fruit ∧
      (check_player_death w).app_state = w.app_state) ∧
    (w.lives - 1 = 0 →
      (check_player_death w).app_state = AppState.GameOver ∧
      (check_player_death w).fruit = none ∧
      (check_player_death w).platforms = w.platforms ∧
      (check_player_death w).player = none ∧
      (check_player_death w).lives = 0) ∧
    (∀ w' seed, (handle_game_over_input w' seed true false).lives = 3 ∧
                (handle_game_over_input w' seed true false).level = 1) := by
  have hlad : lives_after_death w.lives = some (w.lives - 1) := by
    unfold lives_after_death u32_checked_sub
    rw [if_pos hlives, if_pos (by omega)]
  simp only [check_player_death, hpl]
  rw [if_pos hfall, hlad]
  simp only [Option.getD_some]
  by_cases hz : w.lives - 1 = 0
  · rw [if_pos hz]
    exact ⟨rfl, rfl, fun h => absurd hz (by omega), fun _ => ⟨rfl, rfl, rfl, rfl, hz⟩,
      fun w' seed => ⟨rfl, rfl⟩⟩
  · rw [if_neg hz]
    exact ⟨rfl, rfl, fun _ => ⟨rfl, rfl, rfl, rfl⟩, fun h => absurd h hz,
      fun w' seed => ⟨rfl, rfl⟩⟩

/-- Witness for C8: a world with 3 lives and the player fallen to -500
loses one life and respawns with platforms and fruit untouched, and the
restart input resets lives and level. -/
theorem player_death_frame_effect_witness :
    (check_player_death ⟨AppState.InGame, 3, 4, some ⟨0, -500, 0, 0, false⟩,
        [⟨0, 100, 200, 20⟩], none⟩).lives = 3 - 1 ∧
    (check_player_death ⟨AppState.InGame, 3, 4, some ⟨0, -500, 0, 0, false⟩,
        [⟨0, 100, 200, 20⟩], none⟩).level = 4 ∧
    (check_player_death ⟨AppState.InGame, 3, 4, some ⟨0, -500, 0, 0, false⟩,
        [⟨0, 100, 200, 20⟩], none⟩).player = some initialPlayer ∧
    (check_player_death ⟨AppState.InGame, 3, 4, some ⟨0, -500, 0, 0, false⟩,
        [⟨0, 100, 200, 20⟩], none⟩).platforms = [⟨0, 100, 200, 20⟩] ∧
    (handle_game_over_input ⟨AppState.GameOver, 0, 4, none, [], none⟩ 7 true false).lives = 3 ∧
    (handle_game_over_input ⟨AppState.GameOver, 0, 4, none, [], none⟩ 7 true false).level = 1 := by
  have h := player_death_frame_effect
    ⟨AppState.InGame, 3, 4, some ⟨0, -500, 0, 0, false⟩, [⟨0, 100, 200, 20⟩], none⟩
    ⟨0, -500, 0, 0, false⟩ rfl (by norm_num [WINDOW_HEIGHT]) (by norm_num)
  obtain ⟨h1, h2, h3, _h4, h5⟩ := h
  obtain ⟨hp, hplat, _hfr, _hst⟩ := h3 (by norm_num)
  exact ⟨h1, h2, hp, hplat, (h5 _ 7).1, (h5 _ 7).2⟩

set_option maxRecDepth 4000 in
/-- C9: when a fruit is collected, the replacement fruit is computed by
setup_fruits_with_seed from the platform query snapshot taken before
the collection ran — the old, about-to-be-despawned platform list — even
though the world platforms are replaced by a newly generated layout; so
any spawned replacement fruit sits above a platform position of the old
layout. -/
theorem fruit_respawn_from_old_snapshot (w : World) (t : Nat) (pl : PlayerState) (fr : ℚ × ℚ)
    (hpl : w.player = some pl) (hfr : w.fruit = some fr)
    (hdist : sqrt_lt ((pl.px - fr.1) * (pl.px - fr.1) +
      (pl.py - fr.2) * (pl.py - fr.2)) 30 = true) :
    (check_fruit_collection w t).platforms = generatedPlatforms (t + (w.level + 1) * 1000) ∧
    (check_fruit_collection w t).fruit =
      setup_fruits_with_seed (w.platforms.map fun p => (p.x, p.y))
        (t + (w.level + 1) * 1000 + 42) ∧
    (∀ fr', (check_fruit_collection w t).fruit = some fr' →
      ∃ p, p ∈ w.platforms ∧ p.y ≠ 100 ∧ fr' = (p.x, p.y + 10 + 12.5)) := by
  obtain ⟨app, lives, level, player, platforms, fruit⟩ := w
  dsimp only at hpl hfr ⊢
  subst hpl
  subst hfr
  unfold check_fruit_collection
  dsimp only
  rw [if_pos hdist]
  refine ⟨?_, ?_, ?_⟩
  · with_reducible rfl
  · with_reducible rfl
  intro fr' h
  obtain ⟨pos, hmem, hne, heq⟩ := setup_fruits_mem h
  obtain ⟨p, hp, hpeq⟩ := List.mem_map.mp hmem
  refine ⟨p, hp, ?_, ?_⟩
  · intro hy
    exact hne (by rw [← hpeq, hy])
  · rw [heq, ← hpeq]

/-- Witness for C9: collecting the fruit in a world whose platform list
is the starting platform plus one at (300, 200) spawns the new fruit at
(300, 222.5), above the old platform at (300, 200). -/
theorem fruit_respawn_from_old_snapshot_witness :
    ∃ p, p ∈ [(⟨0, 100, 200, 20⟩ : Platform), ⟨300, 200, 150, 20⟩] ∧ p.y ≠ 100 ∧
      ((300 : ℚ), 200 + 10 + 12.5) = (p.x, p.y + 10 + 12.5) := by
  have h := fruit_respawn_from_old_snapshot
    ⟨AppState.InGame, 3, 1, some ⟨0, 200, 0, 0, false⟩,
      [⟨0, 100, 200, 20⟩, ⟨300, 200, 150, 20⟩], some (0, 210)⟩
    0 ⟨0, 200, 0, 0, false⟩ (0, 210) rfl rfl
    (by simp only [sqrt_lt, decide_eq_true_eq]; norm_num)
  refine h.2.2 (300, 200 + 10 + 12.5)
    (h.2.1.trans ((setup_fruits_singleton (q := ((300 : ℚ), (200 : ℚ)))) ?_))
  simp only [List.map_cons, List.map_nil]
  rw [List.filter_cons, List.filter_cons, List.filter_nil]
  norm_num

